import Mathlib

/-!
Shallow embedding of the two automation scripts
`.cursor/scripts/open_cursor_chat.py` and `.cursor/scripts/run_new_agent.py`.

Strings of the Python code are modelled as Lean `String`s (for prompts,
stderr and printed messages) and as `List Char` (for the character-wise
escaping function).  Python truthiness of an optional string (`None` and
`""` are falsy) is modelled by `pyTruthyStr`.  The external collaborators
(`subprocess.run` on `cursor-agent`, `osascript`, `cursor`) are modelled by
an environment record listing the outcome of each call site; the dispatcher
`open_cursor_chat_hybrid` is a pure function of that environment returning
the boolean result together with the list of lines it prints.
-/

/-- Python `str.replace(old, new)` specialised to a single-character
pattern `old`, as used by `escape_applescript_string`: every occurrence of
the character `old` is replaced by the string `new`, scanning left to
right.  For a single-character pattern this is exactly a character-wise
replacement. -/
def pyReplaceChar (old : Char) (new : List Char) : List Char → List Char
  | [] => []
  | c :: cs => (if c == old then new else [c]) ++ pyReplaceChar old new cs

namespace RunNewAgent

/-- `escape_applescript_string` of `run_new_agent.py` (lines 22-25):
`text.replace('\\', '\\\\').replace('"', '\\"')` — backslashes are doubled
first, then each double quote gets a preceding backslash. -/
def escape_applescript_string (text : List Char) : List Char :=
  pyReplaceChar '"' ['\\', '"'] (pyReplaceChar '\\' ['\\', '\\'] text)

end RunNewAgent

namespace OpenCursorChat

/-- `escape_applescript_string` of `open_cursor_chat.py` (lines 20-23):
`text.replace('\\', '\\\\').replace('"', '\\"')`. -/
def escape_applescript_string (text : List Char) : List Char :=
  pyReplaceChar '"' ['\\', '"'] (pyReplaceChar '\\' ['\\', '\\'] text)

end OpenCursorChat

/-- Spec-side description of the escaping, per character: a backslash is
doubled, a double quote receives a preceding backslash, anything else is
kept.  (Comparison definition following the spec words, to be proved equal
to the source definition.) -/
def escSpecChar (c : Char) : List Char :=
  if c == '\\' then ['\\', '\\']
  else if c == '"' then ['\\', '"']
  else [c]

/-- Spec-side escaping of a whole string: `escSpecChar` applied to every
character, results concatenated. -/
def escSpec : List Char → List Char
  | [] => []
  | c :: cs => escSpecChar c ++ escSpec cs

/-- Replacement distributes over append. -/
theorem pyReplaceChar_append (old : Char) (new : List Char) (a b : List Char) :
    pyReplaceChar old new (a ++ b) = pyReplaceChar old new a ++ pyReplaceChar old new b := by
  induction a with
  | nil => rfl
  | cons c cs ih => simp [pyReplaceChar, ih]

/-- The composed replacement acts character-wise like `escSpecChar`. -/
theorem escape_cons (c : Char) (cs : List Char) :
    RunNewAgent.escape_applescript_string (c :: cs)
      = escSpecChar c ++ RunNewAgent.escape_applescript_string cs := by
  unfold RunNewAgent.escape_applescript_string
  by_cases hb : c = '\\'
  · subst hb
    simp [pyReplaceChar, pyReplaceChar_append, escSpecChar]
  · by_cases hq : c = '"'
    · subst hq
      simp [pyReplaceChar, pyReplaceChar_append, escSpecChar]
    · simp [pyReplaceChar, pyReplaceChar_append, escSpecChar, hb, hq]

/-- The source escaping equals the character-wise spec description. -/
theorem escape_eq_escSpec (s : List Char) :
    RunNewAgent.escape_applescript_string s = escSpec s := by
  induction s with
  | nil => rfl
  | cons c cs ih => rw [escape_cons, ih]; rfl

/-- C1: every backslash of the input is doubled and every double quote is
escaped with a preceding backslash (character-wise spec `escSpec`), and the
order of the two replacements matters: applying the quote replacement
before the backslash replacement gives a different result already on the
one-character input `"`. -/
theorem C1_escape_doubles_backslashes_and_escapes_quotes (s : List Char) :
    RunNewAgent.escape_applescript_string s = escSpec s ∧
    pyReplaceChar '\\' ['\\', '\\'] (pyReplaceChar '"' ['\\', '"'] ['"'])
      ≠ RunNewAgent.escape_applescript_string ['"'] := by
  refine ⟨escape_eq_escSpec s, by decide⟩

/-- C10: the two scripts define extensionally equal escaping functions, and
on a string containing neither a backslash nor a double quote the escaping
is the identity. -/
theorem C10_escape_identity_on_clean_strings (s : List Char) :
    RunNewAgent.escape_applescript_string s = OpenCursorChat.escape_applescript_string s ∧
    ((∀ c ∈ s, c ≠ '\\' ∧ c ≠ '"') → RunNewAgent.escape_applescript_string s = s) := by
  constructor
  · rfl
  · intro h
    induction s with
    | nil => rfl
    | cons c cs ih =>
      have hc := h c (List.mem_cons_self c cs)
      rw [escape_cons, ih (fun d hd => h d (List.mem_cons_of_mem c hd))]
      simp [escSpecChar, hc.1, hc.2]

/-- C10 witness: the theorem evaluated at the concrete clean string
`hello`. -/
theorem C10_escape_identity_witness :
    RunNewAgent.escape_applescript_string "hello".toList = "hello".toList :=
  (C10_escape_identity_on_clean_strings "hello".toList).2 (by decide)

/-- Python truthiness of an optional string argument: `None` is falsy and
the empty string is falsy; every other string is truthy. -/
def pyTruthyStr : Option String → Bool
  | none => false
  | some s => !s.isEmpty

/-- The four values accepted by the `--agent` (`-a`) CLI flag of
`run_new_agent.py` (`choices=['swe', 'qa', 'pm', 'docs']`). -/
inductive Agent
  | swe
  | qa
  | pm
  | docs
deriving DecidableEq, Fintype

/-- The fixed lookup of `run_new_agent.py` `main` (lines 215-222): the
canned instruction string assigned to each agent role. -/
def agentPrompt : Agent → String
  | .swe => "run swe agent"
  | .qa => "Use @.cursor/rules/qa-agent.mdc"
  | .pm => "Use @.cursor/rules/pm-agent.mdc"
  | .docs => "run docs agent"

/-- Prompt resolution of `run_new_agent.py` `main` (lines 213-222):
`prompt = args.prompt; if not prompt and args.agent: prompt = <lookup>`.
Note that `not prompt` holds for the empty string as well as for `None`. -/
def resolvePrompt (argsPrompt : Option String) (argsAgent : Option Agent) : Option String :=
  if !pyTruthyStr argsPrompt && argsAgent.isSome then
    argsAgent.map agentPrompt
  else
    argsPrompt

/-- Whether `needle` occurs at the start of `hay` (character lists). -/
def leadsWith : List Char → List Char → Bool
  | [], _ => true
  | _ :: _, [] => false
  | a :: as, b :: bs => a == b && leadsWith as bs

/-- Python's substring test `needle in hay`, on character lists. -/
def containsSub (needle : List Char) : List Char → Bool
  | [] => leadsWith needle []
  | b :: bs => leadsWith needle (b :: bs) || containsSub needle bs

/-- Whether a canned instruction string references a rule-configuration
file by fixed path, i.e. contains the marker `@.cursor/rules/`. -/
def referencesRuleFile (s : String) : Bool :=
  containsSub "@.cursor/rules/".toList s.toList

/-- C2 counterexample: the claim says exactly one role yields a generic
instruction string and the other three reference a rule-configuration
file; in the code both `docs` and `swe` yield generic strings with no
rule-file path, so only two of the four mapped strings reference a
rule-configuration file. -/
theorem C2_counterexample_two_generic_roles :
    resolvePrompt none (some Agent.docs) = some "run docs agent" ∧
    referencesRuleFile "run docs agent" = false ∧
    resolvePrompt none (some Agent.swe) = some "run swe agent" ∧
    referencesRuleFile "run swe agent" = false ∧
    (List.filter (fun a => referencesRuleFile (agentPrompt a))
        [Agent.swe, Agent.qa, Agent.pm, Agent.docs]).length = 2 := by
  decide

/-- C2 amended: with no explicit prompt, each of the four roles resolves to
its fixed mapped string; exactly two roles (`qa` and `pm`) yield strings
referencing a named rule-configuration file by fixed path, and the other
two (`swe` and `docs`) yield generic instruction strings. -/
theorem C2_agent_role_lookup :
    resolvePrompt none (some Agent.swe) = some "run swe agent" ∧
    resolvePrompt none (some Agent.qa) = some "Use @.cursor/rules/qa-agent.mdc" ∧
    resolvePrompt none (some Agent.pm) = some "Use @.cursor/rules/pm-agent.mdc" ∧
    resolvePrompt none (some Agent.docs) = some "run docs agent" ∧
    (∀ a : Agent,
      referencesRuleFile (agentPrompt a) = (a == Agent.qa || a == Agent.pm)) := by
  decide

/-- C3 counterexample: with the explicit prompt `""` and the agent role
`swe`, the resolved prompt is the agent prompt `run swe agent`, not the
explicit (empty) prompt — the empty explicit prompt does not take
precedence. -/
theorem C3_counterexample_empty_prompt :
    resolvePrompt (some "") (some Agent.swe) = some "run swe agent" ∧
    (some "run swe agent" : Option String) ≠ some "" := by
  decide

/-- C3 amended: every NON-EMPTY explicit prompt takes precedence over the
agent-role mapping unconditionally; an empty explicit prompt is treated as
absent (Python truthiness), so the agent mapping applies instead. -/
theorem C3_explicit_prompt_precedence (p : String) (a : Option Agent) (hp : p ≠ "") :
    resolvePrompt (some p) a = some p := by
  have hpe : p.isEmpty = false := by
    cases h : p.isEmpty
    · rfl
    · exact absurd ((String.isEmpty_iff p).mp h) hp
  simp [resolvePrompt, pyTruthyStr, hpe]

/-- C3 witness: the concrete non-empty prompt `fix it` wins over the `swe`
role. -/
theorem C3_explicit_prompt_precedence_witness :
    resolvePrompt (some "fix it") (some Agent.swe) = some "fix it" :=
  C3_explicit_prompt_precedence "fix it" (some Agent.swe) (by decide)

/-- Construction of the effective prompt in `open_cursor_chat_hybrid` of
`run_new_agent.py` (lines 46-50): `full_prompt = prompt; if model and
prompt: full_prompt = f"{prompt} (model: {model})"; elif model:
full_prompt = f"(model: {model})"`. -/
def fullPrompt (prompt model : Option String) : Option String :=
  if pyTruthyStr model && pyTruthyStr prompt then
    some (prompt.getD "" ++ " (model: " ++ model.getD "" ++ ")")
  else if pyTruthyStr model then
    some ("(model: " ++ model.getD "" ++ ")")
  else
    prompt

/-- C4 counterexample: with the non-empty prompt `x` and the model name
`""` (the empty string, which Python treats as falsy), the effective
prompt is `x` and not `x (model: )` as the claim, quantified over every
model name, requires. -/
theorem C4_counterexample_empty_model :
    fullPrompt (some "x") (some "") = some "x" ∧
    (some "x" : Option String) ≠ some ("x" ++ " (model: " ++ "" ++ ")") := by
  decide

/-- C4 amended: for every non-empty prompt `p` and NON-EMPTY model name
`m`, the effective prompt is `p (model: m)`; for every non-empty model
name with no truthy prompt (absent or empty), the effective prompt is the
standalone `(model: m)`. -/
theorem C4_model_suffix_resolution (p m : String) (hp : p ≠ "") (hm : m ≠ "") :
    fullPrompt (some p) (some m) = some (p ++ " (model: " ++ m ++ ")") ∧
    fullPrompt none (some m) = some ("(model: " ++ m ++ ")") ∧
    fullPrompt (some "") (some m) = some ("(model: " ++ m ++ ")") := by
  have hpe : p.isEmpty = false := by
    cases h : p.isEmpty
    · rfl
    · exact absurd ((String.isEmpty_iff p).mp h) hp
  have hme : m.isEmpty = false := by
    cases h : m.isEmpty
    · rfl
    · exact absurd ((String.isEmpty_iff m).mp h) hm
  have h0 : ("" : String).isEmpty = true := by decide
  refine ⟨?_, ?_, ?_⟩ <;> simp [fullPrompt, pyTruthyStr, hpe, hme, h0]

/-- C4 witness: the theorem at the concrete prompt `x` and model `gpt`. -/
theorem C4_model_suffix_resolution_witness :
    fullPrompt (some "x") (some "gpt") = some "x (model: gpt)" := by
  have h := (C4_model_suffix_resolution "x" "gpt" (by decide) (by decide)).1
  simpa using h

/-- Outcome of one `subprocess.run` call site: the call either returns a
completed process (with a return code and captured stderr), or raises
`FileNotFoundError` (command absent), `subprocess.TimeoutExpired`, or some
other exception. -/
inductive SpawnResult
  | ret (returncode : Int) (stderr : String)
  | fileNotFound
  | timeout
  | otherError
deriving DecidableEq

/-- Outcome of the final `subprocess.run(['cursor', path], check=False)`
call: with `check=False` and no timeout it either completes (any return
code) or raises `FileNotFoundError`; no other exception is handled by the
script. -/
inductive LaunchOutcome
  | ran
  | fileNotFound
deriving DecidableEq

/-- The external collaborators of one invocation: the platform string and
the outcome of each of the four `subprocess.run` call sites of
`open_cursor_chat_hybrid` (`cursor-agent`, `osascript` activation,
`osascript` keystroke script, `cursor` launch). -/
structure Env where
  platform : String
  cursorAgent : SpawnResult
  activate : SpawnResult
  keystroke : SpawnResult
  cursorLaunch : LaunchOutcome
deriving DecidableEq

/-- The permission-error test of lines 137-138: `"not allowed to send
keystrokes" in result.stderr or "1002" in result.stderr`. -/
def permissionErr (stderr : String) : Bool :=
  containsSub "not allowed to send keystrokes".toList stderr.toList
    || containsSub "1002".toList stderr.toList

/-- The first line of the remediation guidance printed for the macOS
accessibility permission error (line 139). -/
def permissionMsg : String := "⚠️  macOS Accessibility Permission Required"

/-- The remediation guidance block of lines 139-146. -/
def permissionLines (fp : Option String) : List String :=
  [permissionMsg,
   "   To enable keystroke automation:",
   "   1. Open System Settings → Privacy & Security → Accessibility",
   "   2. Enable \x27Terminal\x27 or \x27Python\x27 (whichever you\x27re using)",
   "   3. Or run this script from Terminal.app (it may already have permissions)",
   "\n   Alternatively, Cursor is now activated - press Cmd+T manually"]
    ++ (if pyTruthyStr fp then ["   Then paste this prompt: " ++ fp.getD ""] else [])

/-- The last-resort block of lines 153-167: run `cursor <workspace>` with
`check=False`; any completed run counts as success, `FileNotFoundError`
(the `cursor` CLI absent) is the only failure. Returns the boolean result
and the printed lines. -/
def lastResortLaunch (fp : Option String) (launch : LaunchOutcome) : Bool × List String :=
  match launch with
  | .ran =>
    (true, ["✅ Opened Cursor"]
      ++ (if pyTruthyStr fp then ["   💡 Press Cmd+T and paste: " ++ fp.getD ""]
          else ["   💡 Press Cmd+T to open a new chat"]))
  | .fileNotFound =>
    (false, ["❌ Cursor CLI not found.",
             "   Install it with: curl https://cursor.com/install -fsS | bash",
             "   Or use AppleScript method (macOS only)"])

/-- Whether the `cursor-agent` attempt (lines 52-72) succeeds: the state
is entered only when the effective prompt is truthy, and it succeeds
exactly when the spawn returns with code zero; `FileNotFoundError`,
`TimeoutExpired` and every other exception are swallowed. -/
def agentAttemptOk (fp : Option String) (env : Env) : Bool :=
  pyTruthyStr fp &&
    (match env.cursorAgent with
     | .ret rc _ => rc == 0
     | _ => false)

set_option linter.unusedVariables false in
/-- `open_cursor_chat_hybrid` of `run_new_agent.py` (lines 28-167), as a
pure function of the collaborator outcomes.  Returns the boolean result
together with the list of printed lines (exception texts interpolated into
messages are not modelled beyond the fixed message prefix).  The
`workspace` argument only selects the final launch argument and affects
neither the result nor the printed lines. -/
def open_cursor_chat_hybrid (prompt workspace model : Option String) (env : Env) :
    Bool × List String :=
  let fp := fullPrompt prompt model
  if agentAttemptOk fp env then
    (true, ["✅ Opened chat with cursor-agent CLI"])
  else if env.platform == "darwin" then
    match env.activate with
    | .ret rc _ =>
      if rc != 0 then
        (false, ["⚠️  Could not activate Cursor. Is it installed?"])
      else
        match env.keystroke with
        | .ret rc2 stderr =>
          if rc2 == 0 then
            (true, ["✅ Opened new chat in Cursor (using AppleScript)"]
              ++ (if pyTruthyStr fp then ["   Prompt: " ++ fp.getD ""] else []))
          else if permissionErr stderr then
            (true, permissionLines fp)
          else
            ((lastResortLaunch fp env.cursorLaunch).1,
             ["⚠️  AppleScript method failed: " ++ stderr] ++ (lastResortLaunch fp env.cursorLaunch).2)
        | _ =>
          ((lastResortLaunch fp env.cursorLaunch).1,
           ["⚠️  AppleScript method failed: "] ++ (lastResortLaunch fp env.cursorLaunch).2)
    | _ =>
      ((lastResortLaunch fp env.cursorLaunch).1,
       ["⚠️  AppleScript method failed: "] ++ (lastResortLaunch fp env.cursorLaunch).2)
  else
    lastResortLaunch fp env.cursorLaunch

/-- `main` of `run_new_agent.py` (lines 170-225): resolve the prompt from
the CLI arguments, dispatch, and exit with `0 if success else 1`. -/
def run_new_agent_main (argsAgent : Option Agent)
    (argsModel argsPrompt argsWorkspace : Option String) (env : Env) : Nat :=
  if (open_cursor_chat_hybrid (resolvePrompt argsPrompt argsAgent)
        argsWorkspace argsModel env).1 then 0 else 1

/-- Whether the macOS branch aborts the whole dispatch: platform is
`darwin` and the activation `osascript` completes with a non-zero return
code (lines 86-88 return `False` immediately). -/
def activationHardFail (env : Env) : Bool :=
  env.platform == "darwin" &&
    (match env.activate with
     | .ret rc _ => rc != 0
     | _ => false)

/-- Whether the macOS keystroke branch reports success: activation
completed with code zero and the keystroke script either completed with
code zero or failed with the special-cased permission error. -/
def keystrokeDelivered (env : Env) : Bool :=
  env.platform == "darwin" &&
    (match env.activate with
     | .ret rc _ => rc == 0
     | _ => false) &&
    (match env.keystroke with
     | .ret rc2 stderr => rc2 == 0 || permissionErr stderr
     | _ => false)

/-- Spec-side comparison definition (amended C5): the dispatch fails
overall exactly when the `cursor-agent` attempt did not succeed and
either (on macOS) activation returned a non-zero code — aborting
immediately — or the final launch was reached (no earlier mechanism
delivered) and the `cursor` launcher was absent. -/
def overallFailureSpec (fp : Option String) (env : Env) : Bool :=
  !agentAttemptOk fp env &&
    (activationHardFail env ||
      (!activationHardFail env && !keystrokeDelivered env &&
        env.cursorLaunch == LaunchOutcome.fileNotFound))

/-- C5 counterexample: on macOS, with `cursor-agent` absent and the
activation call returning code 1, the dispatcher returns failure although
the final `cursor` launch (which would have succeeded) was never reached —
so a missing launcher is not the sole condition yielding overall
failure. -/
theorem C5_counterexample_activation_failure :
    (open_cursor_chat_hybrid (some "hi") none none
      (Env.mk "darwin" SpawnResult.fileNotFound (SpawnResult.ret 1 "")
        (SpawnResult.ret 0 "") LaunchOutcome.ran)).1 = false ∧
    (Env.mk "darwin" SpawnResult.fileNotFound (SpawnResult.ret 1 "")
        (SpawnResult.ret 0 "") LaunchOutcome.ran).cursorLaunch
      ≠ LaunchOutcome.fileNotFound := by
  decide

/-- C5 amended: every collaborator failure is absorbed into the fallback
progression except two conditions, which are exactly the conditions for
overall failure: (a) on macOS, the activation call returning a non-zero
code, which fails immediately, and (b) the final launch being reached with
the `cursor` launcher absent. -/
theorem C5_overall_failure_characterization (p ws m : Option String) (env : Env) :
    (open_cursor_chat_hybrid p ws m env).1 = false ↔
      overallFailureSpec (fullPrompt p m) env = true := by
  rcases env with ⟨plat, ca, act, ks, cl⟩
  by_cases hA : agentAttemptOk (fullPrompt p m) (Env.mk plat ca act ks cl) = true
  · simp [open_cursor_chat_hybrid, overallFailureSpec, hA]
  · rw [Bool.not_eq_true] at hA
    by_cases hd : plat = "darwin"
    · subst hd
      cases act with
      | ret rc ast =>
        by_cases hrc : rc = 0
        · subst hrc
          cases ks with
          | ret rc2 st =>
            by_cases hrc2 : rc2 = 0
            · subst hrc2
              simp [open_cursor_chat_hybrid, overallFailureSpec, activationHardFail,
                keystrokeDelivered, hA]
            · by_cases hperm : permissionErr st = true
              · simp [open_cursor_chat_hybrid, overallFailureSpec, activationHardFail,
                  keystrokeDelivered, hA, hrc2, hperm]
              · rw [Bool.not_eq_true] at hperm
                cases cl <;>
                  simp [open_cursor_chat_hybrid, overallFailureSpec, activationHardFail,
                    keystrokeDelivered, lastResortLaunch, hA, hrc2, hperm]
          | fileNotFound =>
            cases cl <;>
              simp [open_cursor_chat_hybrid, overallFailureSpec, activationHardFail,
                keystrokeDelivered, lastResortLaunch, hA]
          | timeout =>
            cases cl <;>
              simp [open_cursor_chat_hybrid, overallFailureSpec, activationHardFail,
                keystrokeDelivered, lastResortLaunch, hA]
          | otherError =>
            cases cl <;>
              simp [open_cursor_chat_hybrid, overallFailureSpec, activationHardFail,
                keystrokeDelivered, lastResortLaunch, hA]
        · simp [open_cursor_chat_hybrid, overallFailureSpec, activationHardFail,
            keystrokeDelivered, hA, hrc]
      | fileNotFound =>
        cases cl <;>
          simp [open_cursor_chat_hybrid, overallFailureSpec, activationHardFail,
            keystrokeDelivered, lastResortLaunch, hA]
      | timeout =>
        cases cl <;>
          simp [open_cursor_chat_hybrid, overallFailureSpec, activationHardFail,
            keystrokeDelivered, lastResortLaunch, hA]
      | otherError =>
        cases cl <;>
          simp [open_cursor_chat_hybrid, overallFailureSpec, activationHardFail,
            keystrokeDelivered, lastResortLaunch, hA]
    · cases cl <;>
        simp [open_cursor_chat_hybrid, overallFailureSpec, activationHardFail,
          keystrokeDelivered, lastResortLaunch, hA, hd]

/-- C6: on macOS, when the `cursor-agent` attempt did not succeed and the
activation call completes with a non-zero return code, the dispatcher
returns failure immediately; the keystroke and final-launch outcomes
(`ks`, `cl`) are universally quantified, so the result does not depend on
them — neither mechanism is attempted. -/
theorem C6_activation_failure_aborts (p ws m : Option String) (ca : SpawnResult)
    (rc : Int) (ast : String) (ks : SpawnResult) (cl : LaunchOutcome)
    (hagent : agentAttemptOk (fullPrompt p m)
        (Env.mk "darwin" ca (SpawnResult.ret rc ast) ks cl) = false)
    (hrc : rc ≠ 0) :
    (open_cursor_chat_hybrid p ws m
        (Env.mk "darwin" ca (SpawnResult.ret rc ast) ks cl)).1 = false := by
  simp [open_cursor_chat_hybrid, hagent, hrc]

/-- C6 witness: concrete instance with `cursor-agent` absent, activation
exiting 1, a keystroke call that would have succeeded and a launcher that
would have succeeded. -/
theorem C6_activation_failure_aborts_witness :
    (open_cursor_chat_hybrid (some "hi") none none
        (Env.mk "darwin" SpawnResult.fileNotFound (SpawnResult.ret 1 "err")
          (SpawnResult.ret 0 "") LaunchOutcome.ran)).1 = false :=
  C6_activation_failure_aborts (some "hi") none none SpawnResult.fileNotFound 1 "err"
    (SpawnResult.ret 0 "") LaunchOutcome.ran (by decide) (by decide)

/-- C7: the process exit code of `run_new_agent.py` is 0 exactly when the
dispatcher reports success and 1 exactly when it reports failure; and when
all three delivery mechanisms are absent (`cursor-agent`, `osascript` and
`cursor` all raise `FileNotFoundError`), the exit code is 1. -/
theorem C7_exit_code (a : Option Agent) (mdl pr ws : Option String) (env : Env) :
    (run_new_agent_main a mdl pr ws env = 0 ↔
      (open_cursor_chat_hybrid (resolvePrompt pr a) ws mdl env).1 = true) ∧
    (run_new_agent_main a mdl pr ws env = 1 ↔
      (open_cursor_chat_hybrid (resolvePrompt pr a) ws mdl env).1 = false) ∧
    (env.cursorAgent = SpawnResult.fileNotFound → env.activate = SpawnResult.fileNotFound →
      env.cursorLaunch = LaunchOutcome.fileNotFound → run_new_agent_main a mdl pr ws env = 1) := by
  refine ⟨?_, ?_, ?_⟩
  · cases h : (open_cursor_chat_hybrid (resolvePrompt pr a) ws mdl env).1 <;>
      simp [run_new_agent_main, h]
  · cases h : (open_cursor_chat_hybrid (resolvePrompt pr a) ws mdl env).1 <;>
      simp [run_new_agent_main, h]
  · intro h1 h2 h3
    rcases env with ⟨plat, ca, act, ks, cl⟩
    simp only at h1 h2 h3
    subst h1 h2 h3
    by_cases hd : plat = "darwin" <;>
      simp [run_new_agent_main, open_cursor_chat_hybrid, agentAttemptOk,
        lastResortLaunch, hd]

/-- C7 witness: with every collaborator absent the exit code is 1 (shown
for the `swe` role with no explicit prompt on a macOS host). -/
theorem C7_exit_code_witness :
    run_new_agent_main (some Agent.swe) none none none
      (Env.mk "darwin" SpawnResult.fileNotFound SpawnResult.fileNotFound
        SpawnResult.fileNotFound LaunchOutcome.fileNotFound) = 1 :=
  (C7_exit_code (some Agent.swe) none none none
      (Env.mk "darwin" SpawnResult.fileNotFound SpawnResult.fileNotFound
        SpawnResult.fileNotFound LaunchOutcome.fileNotFound)).2.2 rfl rfl rfl

/-- C8: the `cursor-agent` state is entered only when the effective prompt
is truthy — when it is not, the dispatch result (boolean and printed
lines) is independent of the `cursor-agent` outcome — and whenever it is
entered and the invocation exits with status zero, the dispatcher returns
success without attempting the keystroke or last-resort mechanisms (their
outcomes are universally quantified). -/
theorem C8_agent_success_short_circuits (p ws m : Option String) (plat : String)
    (ca act ks : SpawnResult) (cl : LaunchOutcome) (st : String) :
    (pyTruthyStr (fullPrompt p m) = false →
      ∀ ca', open_cursor_chat_hybrid p ws m (Env.mk plat ca act ks cl)
        = open_cursor_chat_hybrid p ws m (Env.mk plat ca' act ks cl)) ∧
    (pyTruthyStr (fullPrompt p m) = true →
      ∀ act' ks' cl',
        (open_cursor_chat_hybrid p ws m
          (Env.mk plat (SpawnResult.ret 0 st) act' ks' cl')).1 = true) := by
  constructor
  · intro h ca'
    simp [open_cursor_chat_hybrid, agentAttemptOk, h]
  · intro h act' ks' cl'
    simp [open_cursor_chat_hybrid, agentAttemptOk, h]

/-- C8 witness: a zero-exit `cursor-agent` run with a truthy prompt
succeeds even though every later mechanism would fail. -/
theorem C8_agent_success_short_circuits_witness :
    (open_cursor_chat_hybrid (some "hi") none none
      (Env.mk "darwin" (SpawnResult.ret 0 "") SpawnResult.fileNotFound
        SpawnResult.fileNotFound LaunchOutcome.fileNotFound)).1 = true :=
  (C8_agent_success_short_circuits (some "hi") none none "darwin"
      (SpawnResult.ret 0 "") SpawnResult.fileNotFound SpawnResult.fileNotFound
      LaunchOutcome.fileNotFound "").2 (by decide)
    SpawnResult.fileNotFound SpawnResult.fileNotFound LaunchOutcome.fileNotFound

/-- C9: on macOS, when activation succeeds (exit 0) and the keystroke
script fails with a stderr containing the permission-error substring
`not allowed to send keystrokes`, the dispatcher prints the remediation
guidance about the macOS accessibility permission settings and still
returns overall success. -/
theorem C9_permission_error_partial_success (p ws m : Option String)
    (ca : SpawnResult) (ast : String) (rc2 : Int) (st : String) (cl : LaunchOutcome)
    (hagent : agentAttemptOk (fullPrompt p m)
        (Env.mk "darwin" ca (SpawnResult.ret 0 ast) (SpawnResult.ret rc2 st) cl) = false)
    (hrc2 : rc2 ≠ 0)
    (hsub : containsSub "not allowed to send keystrokes".toList st.toList = true) :
    (open_cursor_chat_hybrid p ws m
        (Env.mk "darwin" ca (SpawnResult.ret 0 ast) (SpawnResult.ret rc2 st) cl)).1 = true ∧
    (open_cursor_chat_hybrid p ws m
        (Env.mk "darwin" ca (SpawnResult.ret 0 ast) (SpawnResult.ret rc2 st) cl)).2
      = permissionLines (fullPrompt p m) ∧
    permissionMsg ∈ (open_cursor_chat_hybrid p ws m
        (Env.mk "darwin" ca (SpawnResult.ret 0 ast) (SpawnResult.ret rc2 st) cl)).2 := by
  have hperm : permissionErr st = true := by
    unfold permissionErr
    rw [Bool.or_eq_true]
    exact Or.inl hsub
  refine ⟨?_, ?_, ?_⟩ <;>
    simp [open_cursor_chat_hybrid, hagent, hrc2, hperm, permissionLines, permissionMsg]

/-- C9 witness: concrete instance — `cursor-agent` absent, activation
succeeds, keystroke script exits 1 with the permission error on stderr. -/
theorem C9_permission_error_partial_success_witness :
    (open_cursor_chat_hybrid (some "hi") none none
        (Env.mk "darwin" SpawnResult.fileNotFound (SpawnResult.ret 0 "")
          (SpawnResult.ret 1 "osascript: not allowed to send keystrokes.")
          LaunchOutcome.fileNotFound)).1 = true :=
  (C9_permission_error_partial_success (some "hi") none none SpawnResult.fileNotFound ""
      1 "osascript: not allowed to send keystrokes." LaunchOutcome.fileNotFound
      (by decide) (by decide) (by decide)).1
